import Mathlib

/-!
# LocalVault content script: floating button and quick-upload dialog

A shallow embedding of `src/extension/content.js` (class `LocalVaultContent`).

Numbers are JavaScript numbers in the source; pixel coordinates are embedded as
rationals (`ℚ`), so that `rect.width / 2` is exact, and `Date.now()` timestamps
as integers.  Event listeners become functions on an explicit state record, one
function per listener, and an event is dispatched by running the listeners
registered for it in registration order.

What the layout engine returns is not computed here.  The rectangle returned by
`fab.getBoundingClientRect()` is an input of every listener that reads it: it is the
rendered box of the button, which is `(0, 0, 0, 0)` while `display` is `none`, is
scaled about its centre while the hover transform `scale(1.1)` applies, and is in
motion while a `0.3s` transition runs.  The values `fab.offsetWidth` and
`fab.offsetHeight` are the stylesheet size of the button while it is displayed and `0`
while `display` is `none`.  The cosmetic style properties (cursor, z-index, opacity,
transform), the toast and the clipboard upload are not part of the model.
-/

namespace LocalVault

/-! ## Floating action button -/

/-- The value of `fab.style.display` as far as the script sets it. -/
inductive Display where
  | flex
  | none
  deriving DecidableEq

/-- The rectangle returned by `getBoundingClientRect()`. -/
structure Rect where
  left : ℚ
  top : ℚ
  width : ℚ
  height : ℚ
  deriving DecidableEq

/-- The object `{ x, y }` serialised under `localvault-fab-position`. -/
structure Position where
  x : ℚ
  y : ℚ
  deriving DecidableEq

/-- The closure variables of `createFloatingButton` together with the parts of the
page they read and write. -/
structure FabState where
  /-- The value of `window.innerWidth`. -/
  innerWidth : ℚ
  /-- The value of `window.innerHeight`. -/
  innerHeight : ℚ
  /-- The stylesheet width of the button (`width: 50px` in the source). -/
  width : ℚ
  /-- The stylesheet height of the button (`height: 50px` in the source). -/
  height : ℚ
  /-- The inline `left`/`top` in pixels; `none` while only the stylesheet anchor
  `right: 20px; bottom: 20px` applies. -/
  style : Option Position
  /-- The value of `fab.style.display`. -/
  display : Display
  isDragging : Bool
  dragStartX : ℚ
  dragStartY : ℚ
  fabStartX : ℚ
  fabStartY : ℚ
  clickStartTime : ℤ
  hasMoved : Bool
  /-- Whether the timer held in `hideTimeout` is still pending. -/
  hideTimeout : Bool
  /-- The item `localvault-fab-position` of `localStorage`. -/
  stored : Option Position
  /-- Every `localStorage.setItem` call so far, most recent first. -/
  setItemLog : List Position
  /-- The number of `setTimeout(() => this.showQuickUploadDialog(), 10)` calls so far. -/
  dialogRequests : ℕ
  deriving DecidableEq

/-- The constant `padding` of the mouseup listener. -/
def padding : ℚ := 20

/-- The value of `fab.offsetWidth`: `0` for an element that is not displayed. -/
def offsetWidth (s : FabState) : ℚ :=
  if s.display = Display.none then 0 else s.width

/-- The value of `fab.offsetHeight`: `0` for an element that is not displayed. -/
def offsetHeight (s : FabState) : ℚ :=
  if s.display = Display.none then 0 else s.height

/-- The state at the end of `createFloatingButton` (lines 57-74 and 205-210): the
closure variables are initialised, a stored position is applied as it is, and the
hide timer is started. -/
def createFloatingButton (innerWidth innerHeight width height : ℚ)
    (storedPosition : Option Position) : FabState :=
  { innerWidth := innerWidth
    innerHeight := innerHeight
    width := width
    height := height
    style := match storedPosition with
      | some p => some ⟨p.x, p.y⟩
      | none => none
    display := Display.flex
    isDragging := false
    dragStartX := 0
    dragStartY := 0
    fabStartX := 0
    fabStartY := 0
    clickStartTime := 0
    hasMoved := false
    hideTimeout := true
    stored := storedPosition
    setItemLog := []
    dialogRequests := 0 }

/-- The `mousedown` listener of the button (lines 76-92); `rect` is the rectangle read
at line 83. -/
def onMouseDown (s : FabState) (clientX clientY : ℚ) (now : ℤ) (rect : Rect) : FabState :=
  { s with
    isDragging := true
    hasMoved := false
    clickStartTime := now
    dragStartX := clientX
    dragStartY := clientY
    fabStartX := rect.left
    fabStartY := rect.top }

/-- The position computed by the first `mousemove` listener (lines 105-113). -/
def clampedPosition (fabStartX fabStartY deltaX deltaY innerWidth innerHeight
    offsetWidth offsetHeight : ℚ) : Position :=
  let newX := fabStartX + deltaX
  let newY := fabStartY + deltaY
  let maxX := innerWidth - offsetWidth
  let maxY := innerHeight - offsetHeight
  ⟨max 0 (min newX maxX), max 0 (min newY maxY)⟩

/-- The first `mousemove` listener of the document (lines 94-119). -/
def onDragMove (s : FabState) (clientX clientY : ℚ) : FabState :=
  if !s.isDragging then s
  else
    let deltaX := clientX - s.dragStartX
    let deltaY := clientY - s.dragStartY
    let hasMoved := if |deltaX| > 5 ∨ |deltaY| > 5 then true else s.hasMoved
    let p := clampedPosition s.fabStartX s.fabStartY deltaX deltaY
      s.innerWidth s.innerHeight (offsetWidth s) (offsetHeight s)
    { s with hasMoved := hasMoved, style := some p }

/-- The second `mousemove` listener of the document (lines 213-219): show the
button and restart the hide timer. -/
def onActivity (s : FabState) : FabState :=
  { s with display := Display.flex, hideTimeout := true }

/-- The callback of the hide timer (lines 208-210 and 216-218); it runs only while
the timer is pending. -/
def onHideTimeout (s : FabState) : FabState :=
  if s.hideTimeout then { s with display := Display.none, hideTimeout := false } else s

/-- The pair `(finalX, finalY)` computed by the mouseup listener (lines 130-159);
`Math.min` of four arguments is the nested binary minimum. -/
def snapPosition (rect : Rect) (innerWidth innerHeight offsetWidth offsetHeight : ℚ) :
    Position :=
  let centerX := rect.left + rect.width / 2
  let centerY := rect.top + rect.height / 2
  let distanceToLeft := centerX
  let distanceToRight := innerWidth - centerX
  let distanceToTop := centerY
  let distanceToBottom := innerHeight - centerY
  let minDistance := min (min (min distanceToLeft distanceToRight) distanceToTop) distanceToBottom
  let finalX := rect.left
  let finalY := rect.top
  if minDistance = distanceToLeft then ⟨padding, finalY⟩
  else if minDistance = distanceToRight then ⟨innerWidth - offsetWidth - padding, finalY⟩
  else if minDistance = distanceToTop then ⟨finalX, padding⟩
  else ⟨finalX, innerHeight - offsetHeight - padding⟩

/-- The `mouseup` listener of the document (lines 121-174); `rect` is the rectangle
read at line 130, and the listener does not read the pointer coordinates of the event. -/
def onMouseUp (s : FabState) (_clientX _clientY : ℚ) (now : ℤ) (rect : Rect) : FabState :=
  if !s.isDragging then s
  else
    let final := snapPosition rect s.innerWidth s.innerHeight (offsetWidth s) (offsetHeight s)
    let clickDuration := now - s.clickStartTime
    { s with
      isDragging := false
      style := some final
      stored := some final
      setItemLog := final :: s.setItemLog
      dialogRequests :=
        if !s.hasMoved ∧ clickDuration < 200 then s.dialogRequests + 1 else s.dialogRequests }

/-- The `resize` listener of the window (lines 191-203), run once the window has
its new inner size; `rect` is the rectangle read at line 192. -/
def onResize (s : FabState) (innerWidth innerHeight : ℚ) (rect : Rect) : FabState :=
  let s := { s with innerWidth := innerWidth, innerHeight := innerHeight }
  let maxX := s.innerWidth - offsetWidth s
  let maxY := s.innerHeight - offsetHeight s
  if rect.left > maxX ∨ rect.top > maxY then
    let p : Position := ⟨min rect.left maxX, min rect.top maxY⟩
    { s with style := some p, stored := some p, setItemLog := p :: s.setItemLog }
  else s

/-- The events the button reacts to. An event whose listener calls
`getBoundingClientRect()` carries the rectangle that the call returns. -/
inductive FabEvent where
  /-- A `mousedown` on the button at `(clientX, clientY)`, at time `now`. -/
  | mousedown (clientX clientY : ℚ) (now : ℤ) (rect : Rect)
  /-- A `mousemove` anywhere on the page. -/
  | mousemove (clientX clientY : ℚ)
  /-- A `mouseup` anywhere on the page at `(clientX, clientY)`, at time `now`. -/
  | mouseup (clientX clientY : ℚ) (now : ℤ) (rect : Rect)
  /-- The window was resized to the given inner size. -/
  | resize (innerWidth innerHeight : ℚ) (rect : Rect)
  /-- The pending hide timer fires. -/
  | hideTimeout
  deriving DecidableEq

/-- Dispatch of one event: the listeners registered for it run in registration order. -/
def fabStep (s : FabState) : FabEvent → FabState
  | .mousedown x y now rect => onMouseDown s x y now rect
  | .mousemove x y => onActivity (onDragMove s x y)
  | .mouseup x y now rect => onMouseUp s x y now rect
  | .resize w h rect => onResize s w h rect
  | .hideTimeout => onHideTimeout s

/-- Dispatch of a sequence of events, oldest first. -/
def fabRun (s : FabState) (es : List FabEvent) : FabState :=
  es.foldl fabStep s

/-- Whether an event is a page pointer-move. -/
def FabEvent.isMouseMove : FabEvent → Bool
  | .mousemove _ _ => true
  | _ => false

/-- The target rectangle `[0, vw - fw] × [0, vh - fh]` for the top-left corner of a
`fw × fh` button in a `vw × vh` viewport. -/
def WithinViewport (p : Position) (vw vh fw fh : ℚ) : Prop :=
  0 ≤ p.x ∧ p.x ≤ vw - fw ∧ 0 ≤ p.y ∧ p.y ≤ vh - fh

/-! ### The snap rule as the specification words it -/

/-- The four viewport edges. -/
inductive Edge where
  | left
  | right
  | top
  | bottom
  deriving DecidableEq

/-- The order in which ties between edges are resolved. -/
def Edge.all : List Edge := [Edge.left, Edge.right, Edge.top, Edge.bottom]

/-- Distance from the point `(cx, cy)` to an edge of a `vw × vh` viewport. -/
def edgeDistance (cx cy vw vh : ℚ) : Edge → ℚ
  | Edge.left => cx
  | Edge.right => vw - cx
  | Edge.top => cy
  | Edge.bottom => vh - cy

/-- The edge at minimum distance from `(cx, cy)`: the first one, in the order left,
right, top, bottom, whose distance is at most the distance of every edge. -/
def nearestEdge (cx cy vw vh : ℚ) : Edge :=
  (Edge.all.find? fun e =>
    decide (∀ e' ∈ Edge.all, edgeDistance cx cy vw vh e ≤ edgeDistance cx cy vw vh e')).getD
    Edge.bottom

/-- The position that puts the side of a `fw × fh` button facing edge `e` 20px from
that border and keeps the coordinate `left` or `top` on the other axis. -/
def edgePosition (left top fw fh vw vh : ℚ) : Edge → Position
  | Edge.left => ⟨20, top⟩
  | Edge.right => ⟨vw - fw - 20, top⟩
  | Edge.top => ⟨left, 20⟩
  | Edge.bottom => ⟨left, vh - fh - 20⟩

/-- The reference snap: from the top-left `(left, top)` of a `fw × fh` button, take the
edge nearest to its centre and put the matching side of the button 20px from that
border, keeping the coordinate on the other axis. -/
def referenceSnap (left top fw fh vw vh : ℚ) : Position :=
  edgePosition left top fw fh vw vh (nearestEdge (left + fw / 2) (top + fh / 2) vw vh)

/-- Half the size of a `fw × fh` button along the axis that meets an edge. -/
def halfExtent (fw fh : ℚ) : Edge → ℚ
  | Edge.left => fw / 2
  | Edge.right => fw / 2
  | Edge.top => fh / 2
  | Edge.bottom => fh / 2

/-! ## Quick-upload dialog -/

/-- The code points removed by `String.prototype.trim`: the ECMAScript `WhiteSpace`
and `LineTerminator` productions. -/
def isJsWhiteSpace (c : Char) : Bool :=
  c.toNat ∈ [0x9, 0xA, 0xB, 0xC, 0xD, 0x20, 0xA0, 0x1680, 0x2028, 0x2029, 0x202F, 0x205F,
    0x3000, 0xFEFF] || (0x2000 ≤ c.toNat && c.toNat ≤ 0x200A)

/-- The method `String.prototype.trim`: white space is dropped at both ends. -/
def jsTrim (s : String) : String :=
  ⟨((s.data.dropWhile isJsWhiteSpace).reverse.dropWhile isJsWhiteSpace).reverse⟩

/-- An element with id `localvault-dialog`, with the value of the text area
`localvault-quick-text` inside it; `handle` is the identity of the element object. -/
structure DialogNode where
  handle : ℕ
  value : String
  deriving DecidableEq

/-- The response awaited from `chrome.runtime.sendMessage`: a response object with
`success` set, a response object without it (with its `error` field, if any), or a
rejection with an error message. -/
inductive Reply where
  | success
  | failure (error : Option String)
  | thrown (message : String)
  deriving DecidableEq

/-- The part of the page that `showQuickUploadDialog` and its listeners act on. -/
structure PageState where
  /-- the elements with id `localvault-dialog`, in document order -/
  dialogs : List DialogNode
  /-- the identity that the next created element gets -/
  nextHandle : ℕ
  /-- the `closeOnEscape` listeners registered on the document, in registration order,
  each given by the handle of the dialog it closes over -/
  escapeListeners : List ℕ
  /-- the texts of the `uploadText` requests sent so far -/
  sent : List String
  /-- the dialogs whose upload listener awaits a response -/
  pending : List ℕ
  /-- the messages shown with `alert` so far -/
  alerts : List String
  /-- the text of the toast last shown -/
  toast : Option String
  deriving DecidableEq

/-- A page without dialog, listeners or messages. -/
def PageState.empty : PageState :=
  { dialogs := [], nextHandle := 0, escapeListeners := [], sent := [], pending := [],
    alerts := [], toast := none }

/-- The effect of `dialog.remove()` for the dialog object with handle `h`. -/
def removeDialog (dialogs : List DialogNode) (h : ℕ) : List DialogNode :=
  dialogs.filter fun d => d.handle != h

/-- The text area returned by `document.getElementById('localvault-quick-text')` is
the one of the first dialog in document order; this sets its value. -/
def setQuickText (dialogs : List DialogNode) (value : String) : List DialogNode :=
  match dialogs with
  | [] => []
  | d :: rest => { d with value := value } :: rest

/-- The method `showQuickUploadDialog` (lines 246-387), called while the page selection
is `selection`: the first existing dialog is removed, a new one is appended to the
body, the text area is filled with the trimmed selection when that is not empty, and a
new `closeOnEscape` listener is registered. -/
def showQuickUploadDialog (s : PageState) (selection : String) : PageState :=
  let remaining := match s.dialogs with
    | [] => []
    | _ :: rest => rest
  let dialog : DialogNode := ⟨s.nextHandle, ""⟩
  let appended := remaining ++ [dialog]
  let selectedText := jsTrim selection
  { s with
    dialogs := if selectedText ≠ "" then setQuickText appended selectedText else appended
    nextHandle := s.nextHandle + 1
    escapeListeners := s.escapeListeners ++ [s.nextHandle] }

/-- The click listener of the Upload button of dialog `h`, up to the `await`
(lines 345-356). Without a text area in the document the property access throws and
the listener ends. -/
def onUploadClick (s : PageState) (h : ℕ) : PageState :=
  match s.dialogs.head? with
  | none => s
  | some d =>
    let text := jsTrim d.value
    if text = "" then { s with alerts := s.alerts ++ ["Please enter some text"] }
    else { s with sent := s.sent ++ [text], pending := s.pending ++ [h] }

/-- The rest of the click listener of the Upload button of dialog `h`, run when the
awaited response arrives (lines 358-366). -/
def onUploadResponse (s : PageState) (h : ℕ) (reply : Reply) : PageState :=
  if h ∈ s.pending then
    let s := { s with pending := s.pending.erase h }
    match reply with
    | Reply.success =>
      { s with toast := some "Text uploaded successfully!", dialogs := removeDialog s.dialogs h }
    | Reply.failure error =>
      let shown := match error with
        | some e => if e = "" then "Unknown error" else e
        | none => "Unknown error"
      { s with alerts := s.alerts ++ ["Upload failed: " ++ shown] }
    | Reply.thrown message => { s with alerts := s.alerts ++ ["Upload failed: " ++ message] }
  else s

/-- The click listener of the Cancel button of dialog `h` (lines 369-371). -/
def onCancelClick (s : PageState) (h : ℕ) : PageState :=
  { s with dialogs := removeDialog s.dialogs h }

/-- The click listener of dialog `h` for a click whose target is the dialog element itself
(lines 374-378). The markup (lines 256-267) covers the page with a child of the dialog
element, so a pointer click on the dark background has that child as its target and does
not take this branch. -/
def onBackgroundClick (s : PageState) (h : ℕ) : PageState :=
  { s with dialogs := removeDialog s.dialogs h }

/-- The listener `closeOnEscape` of dialog `h` (lines 381-386). -/
def closeOnEscape (s : PageState) (h : ℕ) (key : String) : PageState :=
  if key = "Escape" then
    { s with dialogs := removeDialog s.dialogs h, escapeListeners := s.escapeListeners.erase h }
  else s

/-- A `keydown` event on the document with the given `key`: every `closeOnEscape`
listener registered when the event is dispatched runs, in registration order. -/
def onKeyDown (s : PageState) (key : String) : PageState :=
  s.escapeListeners.foldl (fun acc h => closeOnEscape acc h key) s

/-- The events the dialog reacts to. -/
inductive PageEvent where
  /-- A call of `showQuickUploadDialog` while the page selection is `selection`. -/
  | openDialog (selection : String)
  /-- the user replaces the content of the text area of dialog `h` -/
  | input (h : ℕ) (value : String)
  | uploadClick (h : ℕ)
  | uploadResponse (h : ℕ) (reply : Reply)
  | cancelClick (h : ℕ)
  | backgroundClick (h : ℕ)
  | keydown (key : String)
  deriving DecidableEq

/-- Dispatch of one event of the dialog. -/
def pageStep (s : PageState) : PageEvent → PageState
  | .openDialog selection => showQuickUploadDialog s selection
  | .input h value =>
    { s with dialogs := s.dialogs.map fun d => if d.handle = h then { d with value := value } else d }
  | .uploadClick h => onUploadClick s h
  | .uploadResponse h reply => onUploadResponse s h reply
  | .cancelClick h => onCancelClick s h
  | .backgroundClick h => onBackgroundClick s h
  | .keydown key => onKeyDown s key

/-- Dispatch of a sequence of events of the dialog, oldest first. -/
def pageRun (s : PageState) (es : List PageEvent) : PageState :=
  es.foldl pageStep s

/-! ## Theorems -/

theorem min4_eq_first (a b c d : ℚ) :
    min (min (min a b) c) d = a ↔ a ≤ b ∧ a ≤ c ∧ a ≤ d := by
  constructor
  · intro h
    rw [← h]
    exact ⟨(min_le_left _ _).trans ((min_le_left _ _).trans (min_le_right _ _)),
      (min_le_left _ _).trans (min_le_right _ _), min_le_right _ _⟩
  · rintro ⟨h1, h2, h3⟩
    rw [min_eq_left h1, min_eq_left h2, min_eq_left h3]

theorem min4_eq_second (a b c d : ℚ) :
    min (min (min a b) c) d = b ↔ b ≤ a ∧ b ≤ c ∧ b ≤ d := by
  constructor
  · intro h
    rw [← h]
    exact ⟨(min_le_left _ _).trans ((min_le_left _ _).trans (min_le_left _ _)),
      (min_le_left _ _).trans (min_le_right _ _), min_le_right _ _⟩
  · rintro ⟨h1, h2, h3⟩
    rw [min_eq_right h1, min_eq_left h2, min_eq_left h3]

theorem min4_eq_third (a b c d : ℚ) :
    min (min (min a b) c) d = c ↔ c ≤ a ∧ c ≤ b ∧ c ≤ d := by
  constructor
  · intro h
    rw [← h]
    exact ⟨(min_le_left _ _).trans ((min_le_left _ _).trans (min_le_left _ _)),
      (min_le_left _ _).trans ((min_le_left _ _).trans (min_le_right _ _)), min_le_right _ _⟩
  · rintro ⟨h1, h2, h3⟩
    rw [min_eq_right (le_min h1 h2), min_eq_left h3]

theorem forall_mem_edges (P : Edge → Prop) :
    (∀ e ∈ Edge.all, P e) ↔ P Edge.left ∧ P Edge.right ∧ P Edge.top ∧ P Edge.bottom := by
  simp [Edge.all]

/-- The minimum of the four distances is attained at the first edge meeting the test. -/
theorem nearestEdge_cases (cx cy vw vh : ℚ) :
    nearestEdge cx cy vw vh =
      if min (min (min cx (vw - cx)) cy) (vh - cy) = cx then Edge.left
      else if min (min (min cx (vw - cx)) cy) (vh - cy) = vw - cx then Edge.right
      else if min (min (min cx (vw - cx)) cy) (vh - cy) = cy then Edge.top else Edge.bottom := by
  unfold nearestEdge
  simp only [forall_mem_edges]
  simp only [Edge.all, List.find?, edgeDistance, le_refl, true_and, and_true,
    min4_eq_first, min4_eq_second, min4_eq_third]
  by_cases h1 : cx ≤ vw - cx ∧ cx ≤ cy ∧ cx ≤ vh - cy
  · simp only [h1, decide_True, if_true, Option.getD_some, and_self]
  · by_cases h2 : vw - cx ≤ cx ∧ vw - cx ≤ cy ∧ vw - cx ≤ vh - cy
    · simp only [h1, h2, decide_True, decide_False, if_true, if_false, Option.getD_some, and_self]
    · by_cases h3 : cy ≤ cx ∧ cy ≤ vw - cx ∧ cy ≤ vh - cy
      · simp only [h1, h2, h3, decide_True, decide_False, if_true, if_false, Option.getD_some,
          and_self]
      · simp only [h1, h2, h3, decide_True, decide_False, if_true, if_false]
        split <;> rfl

/-- The position of the mouseup listener is the edge position for the edge nearest to
the centre of the rectangle it read. -/
theorem snapPosition_eq_edgePosition (rect : Rect) (vw vh ow oh : ℚ) :
    snapPosition rect vw vh ow oh =
      edgePosition rect.left rect.top ow oh vw vh
        (nearestEdge (rect.left + rect.width / 2) (rect.top + rect.height / 2) vw vh) := by
  simp only [snapPosition, nearestEdge_cases, padding]
  split_ifs <;> rfl

/-! ### Dragging -/

/-- The clamp `max 0 (min v m)` is never negative and never above `max 0 m`. -/
theorem clamp_bounds (v m : ℚ) : 0 ≤ max 0 (min v m) ∧ max 0 (min v m) ≤ max 0 m :=
  ⟨le_max_left _ _, max_le_max (le_refl _) (min_le_right _ _)⟩

/-- C1 (as amended): while a drag session is active and the button is displayed, the
position written by the pointer-move listener is
`left = max(0, min(fabStartX + deltaX, vw - fw))`, `top` likewise, and it satisfies
`0 ≤ left ≤ max(0, vw - fw)` and `0 ≤ top ≤ max(0, vh - fh)`; when the button fits the
viewport this is the rectangle `[0, vw - fw] × [0, vh - fh]`. -/
theorem dragMove_position_clamped (s : FabState) (clientX clientY : ℚ)
    (hdrag : s.isDragging = true) (hshown : s.display = Display.flex) :
    (fabStep s (.mousemove clientX clientY)).style =
        some ⟨max 0 (min (s.fabStartX + (clientX - s.dragStartX)) (s.innerWidth - s.width)),
          max 0 (min (s.fabStartY + (clientY - s.dragStartY)) (s.innerHeight - s.height))⟩ ∧
      (∀ p, (fabStep s (.mousemove clientX clientY)).style = some p →
        0 ≤ p.x ∧ p.x ≤ max 0 (s.innerWidth - s.width) ∧
        0 ≤ p.y ∧ p.y ≤ max 0 (s.innerHeight - s.height)) ∧
      (s.width ≤ s.innerWidth → s.height ≤ s.innerHeight →
        ∀ p, (fabStep s (.mousemove clientX clientY)).style = some p →
          WithinViewport p s.innerWidth s.innerHeight s.width s.height) := by
  have hstyle : (fabStep s (.mousemove clientX clientY)).style =
      some ⟨max 0 (min (s.fabStartX + (clientX - s.dragStartX)) (s.innerWidth - s.width)),
        max 0 (min (s.fabStartY + (clientY - s.dragStartY)) (s.innerHeight - s.height))⟩ := by
    simp [fabStep, onActivity, onDragMove, hdrag, clampedPosition, offsetWidth, offsetHeight,
      hshown]
  refine ⟨hstyle, ?_, ?_⟩
  · intro p hp
    rw [hstyle] at hp
    cases hp
    exact ⟨(clamp_bounds _ _).1, (clamp_bounds _ _).2, (clamp_bounds _ _).1, (clamp_bounds _ _).2⟩
  · intro hw hh p hp
    rw [hstyle] at hp
    cases hp
    refine ⟨(clamp_bounds _ _).1, ?_, (clamp_bounds _ _).1, ?_⟩
    · exact (clamp_bounds _ _).2.trans (by rw [max_eq_right (sub_nonneg.mpr hw)])
    · exact (clamp_bounds _ _).2.trans (by rw [max_eq_right (sub_nonneg.mpr hh)])

/-- A drag in a 1000 × 800 viewport: the pointer goes far past the top-left corner. -/
theorem dragMove_position_clamped_witness :
    (fabStep (fabRun (createFloatingButton 1000 800 50 50 none)
        [.mousedown 950 750 0 ⟨930, 730, 50, 50⟩]) (.mousemove (-300) (-300))).style =
      some ⟨0, 0⟩ := by
  have h := (dragMove_position_clamped
    (fabRun (createFloatingButton 1000 800 50 50 none)
      [.mousedown 950 750 0 ⟨930, 730, 50, 50⟩]) (-300) (-300)
    (by simp [fabRun, fabStep, onMouseDown])
    (by simp [fabRun, fabStep, onMouseDown, createFloatingButton])).1
  rw [h]
  norm_num [fabRun, fabStep, createFloatingButton, onMouseDown]

/-- C1 (as stated) fails when the viewport is smaller than the button: in a 30 × 30
viewport the displayed 50 × 50 button, pressed at its anchor `(-40, -40)`, is moved to
`(0, 0)` during the drag, and `0 ≤ 30 - 50` is false. -/
theorem dragMove_outside_small_viewport :
    (fabRun (createFloatingButton 30 30 50 50 none)
        [.mousedown 5 5 0 ⟨-40, -40, 50, 50⟩, .mousemove 6 6]).isDragging = true ∧
      (fabRun (createFloatingButton 30 30 50 50 none)
        [.mousedown 5 5 0 ⟨-40, -40, 50, 50⟩, .mousemove 6 6]).style = some ⟨0, 0⟩ ∧
      ¬ WithinViewport ⟨0, 0⟩ 30 30 50 50 := by
  refine ⟨?_, ?_, ?_⟩
  · simp [fabRun, fabStep, createFloatingButton, onMouseDown, onDragMove, onActivity]
  · norm_num [fabRun, fabStep, createFloatingButton, onMouseDown, onDragMove, onActivity,
      clampedPosition, offsetWidth, offsetHeight]
  · norm_num [WithinViewport]

/-! ### Release and snap -/

/-- What the mouseup listener does to an active drag session. -/
theorem onMouseUp_dragging (s : FabState) (x y : ℚ) (now : ℤ) (rect : Rect)
    (hdrag : s.isDragging = true) :
    onMouseUp s x y now rect =
      { s with
        isDragging := false
        style := some (snapPosition rect s.innerWidth s.innerHeight
          (offsetWidth s) (offsetHeight s))
        stored := some (snapPosition rect s.innerWidth s.innerHeight
          (offsetWidth s) (offsetHeight s))
        setItemLog := snapPosition rect s.innerWidth s.innerHeight
          (offsetWidth s) (offsetHeight s) :: s.setItemLog
        dialogRequests :=
          if !s.hasMoved ∧ now - s.clickStartTime < 200 then s.dialogRequests + 1
          else s.dialogRequests } := by
  simp [onMouseUp, hdrag]

/-- C2 fails on the code. In a 1000 × 800 viewport the 50 × 50 button at its anchor
`(930, 730)` is pressed and held until the hide timer fires; at the release the
listener reads the rectangle `(0, 0, 0, 0)` and the width `0` of the hidden button and
renders and stores `(20, 0)`, while the reference snap of `(930, 730)` is `(930, 730)`,
at the right border. A click on the hovered button, whose rectangle is
`(927.5, 727.5, 55, 55)`, stores `(930, 727.5)`: the other coordinate is not kept. -/
theorem release_while_hidden_snaps_left :
    (fabRun (createFloatingButton 1000 800 50 50 none)
        [.mousemove 960 760, .mousedown 960 760 0 ⟨930, 730, 50, 50⟩, .hideTimeout,
          .mouseup 960 760 10000 ⟨0, 0, 0, 0⟩]).style = some ⟨20, 0⟩ ∧
      (fabRun (createFloatingButton 1000 800 50 50 none)
        [.mousemove 960 760, .mousedown 960 760 0 ⟨930, 730, 50, 50⟩, .hideTimeout,
          .mouseup 960 760 10000 ⟨0, 0, 0, 0⟩]).stored = some ⟨20, 0⟩ ∧
      referenceSnap 930 730 50 50 1000 800 = ⟨930, 730⟩ ∧
      (fabRun (createFloatingButton 1000 800 50 50 none)
        [.mousemove 960 760, .mousedown 960 760 0 ⟨1855 / 2, 1455 / 2, 55, 55⟩,
          .mouseup 960 760 100 ⟨1855 / 2, 1455 / 2, 55, 55⟩]).stored =
        some ⟨930, 1455 / 2⟩ := by
  refine ⟨?_, ?_, ?_, ?_⟩
  · norm_num [fabRun, fabStep, createFloatingButton, onMouseDown, onDragMove, onActivity,
      onHideTimeout, onMouseUp, offsetWidth, offsetHeight, snapPosition, padding]
  · norm_num [fabRun, fabStep, createFloatingButton, onMouseDown, onDragMove, onActivity,
      onHideTimeout, onMouseUp, offsetWidth, offsetHeight, snapPosition, padding]
  · norm_num [referenceSnap, edgePosition, nearestEdge, Edge.all, edgeDistance]
  · norm_num [fabRun, fabStep, createFloatingButton, onMouseDown, onDragMove, onActivity,
      onMouseUp, offsetWidth, offsetHeight, snapPosition, padding]
    simp only [reduceCtorEq, if_false]
    norm_num

/-- C3 (as amended): after a drag-release of the displayed button, the side of the
button facing the selected border is 20px from it, so the centre of the released
button is at distance `20 + fw / 2` from the left or right border, or `20 + fh / 2`
from the top or bottom border; the selected border is the one nearest to the centre of
the rectangle read at the release, ties resolved in the order left, right, top, bottom. -/
theorem mouseUp_centre_distance (s : FabState) (x y : ℚ) (now : ℤ) (rect : Rect)
    (hdrag : s.isDragging = true) (hshown : s.display = Display.flex) :
    ∃ p, (fabStep s (.mouseup x y now rect)).style = some p ∧
      edgeDistance (p.x + s.width / 2) (p.y + s.height / 2) s.innerWidth s.innerHeight
          (nearestEdge (rect.left + rect.width / 2) (rect.top + rect.height / 2)
            s.innerWidth s.innerHeight) =
        20 + halfExtent s.width s.height
          (nearestEdge (rect.left + rect.width / 2) (rect.top + rect.height / 2)
            s.innerWidth s.innerHeight) := by
  have how : offsetWidth s = s.width := by simp [offsetWidth, hshown]
  have hoh : offsetHeight s = s.height := by simp [offsetHeight, hshown]
  refine ⟨edgePosition rect.left rect.top s.width s.height s.innerWidth s.innerHeight
    (nearestEdge (rect.left + rect.width / 2) (rect.top + rect.height / 2)
      s.innerWidth s.innerHeight), ?_, ?_⟩
  · simp only [fabStep, onMouseUp_dragging s x y now rect hdrag]
    rw [snapPosition_eq_edgePosition, how, hoh]
  · cases nearestEdge (rect.left + rect.width / 2) (rect.top + rect.height / 2)
        s.innerWidth s.innerHeight <;>
      simp only [edgePosition, edgeDistance, halfExtent] <;> ring

/-- A release near the left border of a 1000 × 800 viewport: the centre of the 50 × 50
button ends 45px from the left border. -/
theorem mouseUp_centre_distance_witness :
    ∃ p, (fabStep (fabRun (createFloatingButton 1000 800 50 50 none)
        [.mousedown 950 750 0 ⟨930, 730, 50, 50⟩, .mousemove 100 400])
        (.mouseup 100 400 500 ⟨80, 380, 50, 50⟩)).style = some p ∧
      p.x + 50 / 2 = 45 := by
  obtain ⟨p, hp, hd⟩ := mouseUp_centre_distance
    (fabRun (createFloatingButton 1000 800 50 50 none)
      [.mousedown 950 750 0 ⟨930, 730, 50, 50⟩, .mousemove 100 400]) 100 400 500
    ⟨80, 380, 50, 50⟩
    (by simp [fabRun, fabStep, createFloatingButton, onMouseDown, onDragMove, onActivity])
    (by simp [fabRun, fabStep, createFloatingButton, onMouseDown, onDragMove, onActivity])
  refine ⟨p, hp, ?_⟩
  norm_num [fabRun, fabStep, createFloatingButton, onMouseDown, onDragMove, onActivity,
    nearestEdge, Edge.all, edgeDistance, halfExtent] at hd
  linarith

/-- C3 (as stated) fails: dragged to `(80, 380)` and released in a 1000 × 800 viewport,
the 50 × 50 button snaps to `(20, 380)`; its centre `(45, 405)` is 45, 955, 405 and
395 px from the left, right, top and bottom borders, and none of these lies in
`[19, 21]`. -/
theorem mouseUp_centre_not_within_21 :
    (fabRun (createFloatingButton 1000 800 50 50 none)
        [.mousedown 950 750 0 ⟨930, 730, 50, 50⟩, .mousemove 100 400,
          .mouseup 100 400 500 ⟨80, 380, 50, 50⟩]).style = some ⟨20, 380⟩ ∧
      ∀ e ∈ Edge.all, ¬ (19 ≤ edgeDistance (20 + 50 / 2) (380 + 50 / 2) 1000 800 e ∧
        edgeDistance (20 + 50 / 2) (380 + 50 / 2) 1000 800 e ≤ 21) := by
  refine ⟨?_, ?_⟩
  · norm_num [fabRun, fabStep, createFloatingButton, onMouseDown, onDragMove, onActivity,
      onMouseUp, offsetWidth, offsetHeight, clampedPosition, snapPosition, padding]
  · rw [forall_mem_edges]
    norm_num [edgeDistance]

/-! ### Position invariant -/

/-- C4 fails on the code. A position `(900, 700)` stored in a large window is applied as
it is when the widget is created in a 500 × 400 viewport, outside `[0, 450] × [0, 350]`,
and nothing is stored. In a 60 × 800 viewport the release of the button dragged to
`(0, 0)` renders and stores `(20, 0)`, and `20 ≤ 60 - 50` is false. -/
theorem stored_position_loaded_unclamped :
    (createFloatingButton 500 400 50 50 (some ⟨900, 700⟩)).style = some ⟨900, 700⟩ ∧
      (createFloatingButton 500 400 50 50 (some ⟨900, 700⟩)).setItemLog = [] ∧
      ¬ WithinViewport ⟨900, 700⟩ 500 400 50 50 ∧
      (fabRun (createFloatingButton 60 800 50 50 none)
        [.mousedown 0 740 0 ⟨-10, 730, 50, 50⟩, .mousemove (-100) (-1000),
          .mouseup (-100) (-1000) 500 ⟨0, 0, 50, 50⟩]).stored = some ⟨20, 0⟩ ∧
      ¬ WithinViewport ⟨20, 0⟩ 60 800 50 50 := by
  refine ⟨rfl, rfl, ?_, ?_, ?_⟩
  · norm_num [WithinViewport]
  · norm_num [fabRun, fabStep, createFloatingButton, onMouseDown, onDragMove, onActivity,
      onMouseUp, offsetWidth, offsetHeight, clampedPosition, snapPosition, padding]
  · norm_num [WithinViewport]

/-! ### Resize -/

/-- C10 fails on the code. The button stored at `(900, 700)` in a 1000 × 800 viewport is
hidden by the idle timer; when the window is then resized to 500 × 400 the listener
reads the rectangle `(0, 0, 0, 0)` and the width `0`, so it writes and stores nothing
although `900 > 500 - 50`; the next pointer-move shows the button, still at
`(900, 700)`. -/
theorem resize_while_hidden_not_corrected :
    (fabRun (createFloatingButton 1000 800 50 50 (some ⟨900, 700⟩))
        [.hideTimeout, .resize 500 400 ⟨0, 0, 0, 0⟩]).style = some ⟨900, 700⟩ ∧
      (fabRun (createFloatingButton 1000 800 50 50 (some ⟨900, 700⟩))
        [.hideTimeout, .resize 500 400 ⟨0, 0, 0, 0⟩]).setItemLog = [] ∧
      (fabRun (createFloatingButton 1000 800 50 50 (some ⟨900, 700⟩))
        [.hideTimeout, .resize 500 400 ⟨0, 0, 0, 0⟩, .mousemove 10 10]).display =
        Display.flex ∧
      (fabRun (createFloatingButton 1000 800 50 50 (some ⟨900, 700⟩))
        [.hideTimeout, .resize 500 400 ⟨0, 0, 0, 0⟩, .mousemove 10 10]).style =
        some ⟨900, 700⟩ ∧
      ¬ WithinViewport ⟨900, 700⟩ 500 400 50 50 := by
  refine ⟨?_, ?_, ?_, ?_, ?_⟩
  · norm_num [fabRun, fabStep, createFloatingButton, onHideTimeout, onResize, offsetWidth,
      offsetHeight]
  · norm_num [fabRun, fabStep, createFloatingButton, onHideTimeout, onResize, offsetWidth,
      offsetHeight]
  · simp [fabRun, fabStep, onActivity]
  · norm_num [fabRun, fabStep, createFloatingButton, onHideTimeout, onResize, offsetWidth,
      offsetHeight, onDragMove, onActivity]
  · norm_num [WithinViewport]

/-! ### Click or drag -/

theorem fabRun_append (s : FabState) (es fs : List FabEvent) :
    fabRun s (es ++ fs) = fabRun (fabRun s es) fs := by
  simp [fabRun, List.foldl_append]

theorem fabRun_cons (s : FabState) (e : FabEvent) (es : List FabEvent) :
    fabRun s (e :: es) = fabRun (fabStep s e) es := rfl

/-- One pointer-move inside a drag session keeps the session and its start data and
sets `hasMoved` when it is more than 5px from the start on an axis. -/
theorem fabStep_mousemove_dragging (d : FabState) (x y : ℚ) (hdrag : d.isDragging = true) :
    (fabStep d (.mousemove x y)).isDragging = true ∧
      (fabStep d (.mousemove x y)).dragStartX = d.dragStartX ∧
      (fabStep d (.mousemove x y)).dragStartY = d.dragStartY ∧
      (fabStep d (.mousemove x y)).clickStartTime = d.clickStartTime ∧
      (fabStep d (.mousemove x y)).dialogRequests = d.dialogRequests ∧
      ((fabStep d (.mousemove x y)).hasMoved = true ↔ d.hasMoved = true ∨
        (|x - d.dragStartX| > 5 ∨ |y - d.dragStartY| > 5)) := by
  simp only [fabStep, onActivity, onDragMove, hdrag, Bool.not_true, Bool.false_eq_true,
    if_false, true_and]
  by_cases h : |x - d.dragStartX| > 5 ∨ |y - d.dragStartY| > 5
  · simp only [h, if_true, or_true]
  · simp only [h, if_false, or_false]

/-- A run of pointer-moves inside a drag session keeps the session and its start data,
requests no dialog, and leaves `hasMoved` set exactly when it was set before or some
move is more than 5px from the start on an axis. -/
theorem fabRun_moves (moves : List (ℚ × ℚ)) :
    ∀ d : FabState, d.isDragging = true → ∀ t : FabState,
      t = fabRun d (moves.map fun m => FabEvent.mousemove m.1 m.2) →
      t.isDragging = true ∧ t.dragStartX = d.dragStartX ∧ t.dragStartY = d.dragStartY ∧
        t.clickStartTime = d.clickStartTime ∧ t.dialogRequests = d.dialogRequests ∧
        (t.hasMoved = true ↔ d.hasMoved = true ∨
          ∃ m ∈ moves, |m.1 - d.dragStartX| > 5 ∨ |m.2 - d.dragStartY| > 5) := by
  induction moves with
  | nil =>
    intro d hdrag t ht
    subst ht
    simp [fabRun, hdrag]
  | cons m ms ih =>
    intro d hdrag t ht
    obtain ⟨h1, h2, h3, h4, h5, h6⟩ := fabStep_mousemove_dragging d m.1 m.2 hdrag
    rw [List.map_cons, fabRun_cons] at ht
    obtain ⟨i1, i2, i3, i4, i5, i6⟩ := ih (fabStep d (.mousemove m.1 m.2)) h1 t ht
    refine ⟨i1, i2.trans h2, i3.trans h3, i4.trans h4, i5.trans h5, ?_⟩
    rw [i6, h6, h2, h3]
    simp only [List.mem_cons, exists_eq_or_imp]
    exact or_assoc

/-- C5 (as amended): over a pointer-down, pointer-moves, pointer-up sequence on the
button the dialog is requested exactly once when no pointer-move of the session is more
than 5px away from the pointer-down position on either axis and the release comes less
than 200 ms after the press; otherwise it is not requested at all. This holds for every
state before the press and for every rectangle read at the press and at the release. -/
theorem click_requests_dialog_iff (s : FabState) (x0 y0 : ℚ) (t0 : ℤ) (r0 : Rect)
    (moves : List (ℚ × ℚ)) (x1 y1 : ℚ) (t1 : ℤ) (r1 : Rect) :
    (fabRun s (.mousedown x0 y0 t0 r0 :: ((moves.map fun m => FabEvent.mousemove m.1 m.2) ++
        [.mouseup x1 y1 t1 r1]))).dialogRequests =
      s.dialogRequests +
        if (∀ m ∈ moves, |m.1 - x0| ≤ 5 ∧ |m.2 - y0| ≤ 5) ∧ t1 - t0 < 200 then 1 else 0 := by
  rw [fabRun_cons, fabRun_append]
  have hd : (fabStep s (.mousedown x0 y0 t0 r0)).isDragging = true := rfl
  obtain ⟨h1, -, -, h4, h5, h6⟩ :=
    fabRun_moves moves (fabStep s (.mousedown x0 y0 t0 r0)) hd _ rfl
  generalize fabRun (fabStep s (.mousedown x0 y0 t0 r0))
    (moves.map fun m => FabEvent.mousemove m.1 m.2) = t at h1 h4 h5 h6
  have hs : (fabStep s (.mousedown x0 y0 t0 r0)).dialogRequests = s.dialogRequests := rfl
  have hc : (fabStep s (.mousedown x0 y0 t0 r0)).clickStartTime = t0 := rfl
  have hx : (fabStep s (.mousedown x0 y0 t0 r0)).dragStartX = x0 := rfl
  have hy : (fabStep s (.mousedown x0 y0 t0 r0)).dragStartY = y0 := rfl
  have hm : (fabStep s (.mousedown x0 y0 t0 r0)).hasMoved = false := rfl
  rw [hs] at h5
  rw [hc] at h4
  rw [hx, hy, hm] at h6
  have hmoved : (!t.hasMoved) = true ↔ ∀ m ∈ moves, |m.1 - x0| ≤ 5 ∧ |m.2 - y0| ≤ 5 := by
    rw [Bool.not_eq_true', ← Bool.not_eq_true, h6]
    simp only [Bool.false_eq_true, false_or, not_exists, not_and, not_or, not_lt, gt_iff_lt]
  have hrun : (fabRun t [.mouseup x1 y1 t1 r1]).dialogRequests =
      if !t.hasMoved ∧ t1 - t.clickStartTime < 200 then t.dialogRequests + 1
      else t.dialogRequests := by
    simp only [fabRun, List.foldl_cons, List.foldl_nil, fabStep,
      onMouseUp_dragging t x1 y1 t1 r1 h1]
  rw [hrun, h4, h5]
  by_cases hall : ∀ m ∈ moves, |m.1 - x0| ≤ 5 ∧ |m.2 - y0| ≤ 5
  · by_cases ht : t1 - t0 < 200
    · rw [if_pos ⟨hmoved.mpr hall, ht⟩, if_pos ⟨hall, ht⟩]
    · rw [if_neg (fun h => ht h.2), if_neg (fun h => ht h.2)]
      rfl
  · rw [if_neg (fun h => hall (hmoved.mp h.1)), if_neg (fun h => hall h.1)]
    rfl

/-- C5 (as stated) fails: the pointer goes 10px to the right and comes back, so the net
displacement between press and release is zero and the release comes after 100 ms, yet
no dialog is requested. -/
theorem click_with_zero_net_displacement_not_opened :
    (fabRun (createFloatingButton 1000 800 50 50 none)
      [.mousedown 960 760 0 ⟨930, 730, 50, 50⟩, .mousemove 970 760, .mousemove 960 760,
        .mouseup 960 760 100 ⟨930, 730, 50, 50⟩]).dialogRequests = 0 := by
  norm_num [fabRun, fabStep, createFloatingButton, onMouseDown, onDragMove, onActivity,
    onMouseUp]

/-! ### Idle hiding -/

theorem fabStep_display_of_not_move (s : FabState) (e : FabEvent)
    (hmove : e.isMouseMove = false) (hhide : e ≠ FabEvent.hideTimeout) :
    (fabStep s e).display = s.display := by
  cases e with
  | mousedown x y now rect => rfl
  | mousemove x y => simp [FabEvent.isMouseMove] at hmove
  | mouseup x y now rect =>
    simp only [fabStep, onMouseUp]
    split <;> rfl
  | resize w h rect =>
    simp only [fabStep, onResize]
    split <;> rfl
  | hideTimeout => exact absurd rfl hhide

/-- C9 (as amended): the hide timer does not look at the drag session. In every state
reached from widget creation, an expiry of the pending timer hides the button and leaves
the drag session as it is, so it hides the button also while a drag session is active;
the button is hidden only if the timer has fired and no page pointer-move has been
dispatched since; and a pointer-move dispatched in any state shows the button again,
restarts the timer and keeps the drag session as it is. -/
theorem hidden_only_after_timeout (vw vh fw fh : ℚ) (stored : Option Position)
    (es : List FabEvent) :
    ((fabRun (createFloatingButton vw vh fw fh stored) es).hideTimeout = true →
        (fabStep (fabRun (createFloatingButton vw vh fw fh stored) es)
            .hideTimeout).display = Display.none ∧
          (fabStep (fabRun (createFloatingButton vw vh fw fh stored) es)
            .hideTimeout).isDragging =
            (fabRun (createFloatingButton vw vh fw fh stored) es).isDragging) ∧
      ((fabRun (createFloatingButton vw vh fw fh stored) es).display = Display.none →
        ∃ before after, es = before ++ FabEvent.hideTimeout :: after ∧
          ∀ e ∈ after, e.isMouseMove = false) ∧
      ∀ x y, (fabStep (fabRun (createFloatingButton vw vh fw fh stored) es)
            (.mousemove x y)).display = Display.flex ∧
          (fabStep (fabRun (createFloatingButton vw vh fw fh stored) es)
            (.mousemove x y)).hideTimeout = true ∧
          (fabStep (fabRun (createFloatingButton vw vh fw fh stored) es)
            (.mousemove x y)).isDragging =
            (fabRun (createFloatingButton vw vh fw fh stored) es).isDragging := by
  refine ⟨?_, ?_, ?_⟩
  · intro hpending
    simp only [fabStep, onHideTimeout, hpending, if_true, and_self]
  · induction es using List.reverseRecOn with
    | nil =>
      intro h
      simp [fabRun, createFloatingButton] at h
    | append_singleton es e ih =>
      intro h
      rw [fabRun_append] at h
      simp only [fabRun, List.foldl_cons, List.foldl_nil] at h ih
      by_cases hhide : e = FabEvent.hideTimeout
      · exact ⟨es, [], by rw [hhide], by simp⟩
      · cases hmove : e.isMouseMove with
        | true =>
          cases e with
          | mousemove x y => simp [fabStep, onActivity] at h
          | mousedown x y now rect => simp [FabEvent.isMouseMove] at hmove
          | mouseup x y now rect => simp [FabEvent.isMouseMove] at hmove
          | resize w h rect => simp [FabEvent.isMouseMove] at hmove
          | hideTimeout => simp [FabEvent.isMouseMove] at hmove
        | false =>
          rw [fabStep_display_of_not_move _ e hmove hhide] at h
          obtain ⟨before, after, hes, hafter⟩ := ih h
          refine ⟨before, after ++ [e], by rw [hes]; simp, ?_⟩
          intro e' he'
          rcases List.mem_append.mp he' with h1 | h1
          · exact hafter e' h1
          · rw [List.mem_singleton.mp h1]
            exact hmove
  · intro x y
    refine ⟨rfl, rfl, ?_⟩
    simp only [fabStep, onActivity, onDragMove]
    split <;> rfl

/-- A press held still: the pending timer fires during the drag session and hides the
button, and the session stays active. -/
theorem hidden_only_after_timeout_witness :
    (fabStep (fabRun (createFloatingButton 1000 800 50 50 none)
        [.mousemove 960 760, .mousedown 960 760 0 ⟨930, 730, 50, 50⟩])
        .hideTimeout).display = Display.none ∧
      (fabStep (fabRun (createFloatingButton 1000 800 50 50 none)
        [.mousemove 960 760, .mousedown 960 760 0 ⟨930, 730, 50, 50⟩])
        .hideTimeout).isDragging = true := by
  have h := (hidden_only_after_timeout 1000 800 50 50 none
    [.mousemove 960 760, .mousedown 960 760 0 ⟨930, 730, 50, 50⟩]).1
    (by simp [fabRun, fabStep, createFloatingButton, onMouseDown, onDragMove, onActivity])
  refine ⟨h.1, h.2.trans ?_⟩
  simp [fabRun, fabStep, onMouseDown]

/-- C9 (as stated) fails: the pointer is pressed on the button and held still until the
hide timer fires; the drag session is then still active and the button is hidden. -/
theorem hidden_while_dragging :
    (fabRun (createFloatingButton 1000 800 50 50 none)
        [.mousemove 960 760, .mousedown 960 760 0 ⟨930, 730, 50, 50⟩,
          .hideTimeout]).isDragging = true ∧
      (fabRun (createFloatingButton 1000 800 50 50 none)
        [.mousemove 960 760, .mousedown 960 760 0 ⟨930, 730, 50, 50⟩,
          .hideTimeout]).display = Display.none := by
  constructor <;>
    simp [fabRun, fabStep, createFloatingButton, onMouseDown, onDragMove, onActivity,
      onHideTimeout]

/-! ### Dialog -/

theorem dropWhile_eq_nil_of_all (p : Char → Bool) (l : List Char)
    (h : ∀ c ∈ l.dropWhile p, p c = true) : l.dropWhile p = [] := by
  induction l with
  | nil => rfl
  | cons a l ih =>
    rw [List.dropWhile_cons] at h ⊢
    cases ha : p a with
    | true =>
      simp only [ha, if_true] at h ⊢
      exact ih h
    | false =>
      simp only [ha, Bool.false_eq_true, if_false] at h
      have := h a (List.mem_cons_self _ _)
      rw [ha] at this
      cases this

/-- The trimmed value is empty exactly for the empty string and strings of white space. -/
theorem jsTrim_eq_empty_iff (v : String) :
    jsTrim v = "" ↔ ∀ c ∈ v.data, isJsWhiteSpace c = true := by
  have hnil : ("" : String) = ⟨[]⟩ := rfl
  rw [jsTrim, hnil, String.ext_iff]
  simp only [List.reverse_eq_nil_iff]
  constructor
  · intro h
    have h2 : ∀ c ∈ v.data.dropWhile isJsWhiteSpace, isJsWhiteSpace c = true := by
      intro c hc
      exact (List.dropWhile_eq_nil_iff.mp h) c (List.mem_reverse.mpr hc)
    exact List.dropWhile_eq_nil_iff.mp (dropWhile_eq_nil_of_all _ _ h2)
  · intro h
    rw [List.dropWhile_eq_nil_iff.mpr h]
    rfl

/-- C6: when the trimmed content of the dialog's text area is empty, a click on Upload
sends no `uploadText` request and removes nothing: the page is unchanged except for the
blocking warning. -/
theorem empty_upload_sends_nothing (s : PageState) (h : ℕ) (d : DialogNode)
    (hfield : s.dialogs.head? = some d) (hempty : jsTrim d.value = "") :
    pageStep s (.uploadClick h) = { s with alerts := s.alerts ++ ["Please enter some text"] } ∧
      (pageStep s (.uploadClick h)).sent = s.sent ∧
      (pageStep s (.uploadClick h)).pending = s.pending ∧
      (pageStep s (.uploadClick h)).dialogs = s.dialogs := by
  have hstep : pageStep s (.uploadClick h) =
      { s with alerts := s.alerts ++ ["Please enter some text"] } := by
    simp only [pageStep, onUploadClick, hfield, hempty, if_true]
  rw [hstep]
  exact ⟨rfl, rfl, rfl, rfl⟩

/-- A dialog whose text area holds blanks, a tab and a line break only. -/
theorem empty_upload_sends_nothing_witness :
    (pageStep ⟨[⟨0, "  \t\n"⟩], 1, [0], [], [], [], none⟩ (.uploadClick 0)).sent = [] ∧
      (pageStep ⟨[⟨0, "  \t\n"⟩], 1, [0], [], [], [], none⟩ (.uploadClick 0)).dialogs =
        [⟨0, "  \t\n"⟩] :=
  ⟨(empty_upload_sends_nothing ⟨[⟨0, "  \t\n"⟩], 1, [0], [], [], [], none⟩ 0 ⟨0, "  \t\n"⟩
      rfl (by decide)).2.1,
    (empty_upload_sends_nothing ⟨[⟨0, "  \t\n"⟩], 1, [0], [], [], [], none⟩ 0 ⟨0, "  \t\n"⟩
      rfl (by decide)).2.2.2⟩

theorem setQuickText_length (dialogs : List DialogNode) (value : String) :
    (setQuickText dialogs value).length = dialogs.length := by
  cases dialogs <;> rfl

theorem showQuickUploadDialog_length (s : PageState) (selection : String) :
    (showQuickUploadDialog s selection).dialogs.length = s.dialogs.length - 1 + 1 := by
  simp only [showQuickUploadDialog]
  split_ifs <;> cases s.dialogs <;> simp [setQuickText_length]

/-- C7: from a page with at most one dialog node, a call of `showQuickUploadDialog`
leaves exactly one dialog node, and so does a second call right after it. -/
theorem dialog_singleton (s : PageState) (selection selection2 : String)
    (hone : s.dialogs.length ≤ 1) :
    (pageStep s (.openDialog selection)).dialogs.length = 1 ∧
      (pageRun s [.openDialog selection, .openDialog selection2]).dialogs.length = 1 := by
  simp only [pageRun, List.foldl_cons, List.foldl_nil, pageStep, showQuickUploadDialog_length]
  omega

/-- Two calls on a page without dialog, the second with a selection. -/
theorem dialog_singleton_witness :
    (pageRun PageState.empty [.openDialog "", .openDialog " note "]).dialogs.length = 1 :=
  (dialog_singleton PageState.empty "" " note " (by decide)).2

/-- C8 fails on the code: after open and Cancel no dialog is present but its
`closeOnEscape` listener is still registered, and after a second open and Cancel two
such listeners are registered. -/
theorem escape_listener_left_after_cancel :
    (pageRun PageState.empty [.openDialog "", .cancelClick 0]).dialogs = [] ∧
      (pageRun PageState.empty [.openDialog "", .cancelClick 0]).escapeListeners = [0] ∧
      (pageRun PageState.empty
        [.openDialog "", .cancelClick 0, .openDialog "", .cancelClick 1]).dialogs = [] ∧
      (pageRun PageState.empty
        [.openDialog "", .cancelClick 0, .openDialog "", .cancelClick 1]).escapeListeners =
        [0, 1] := by
  decide

end LocalVault
